import Mathlib

/-!
Shallow embedding of the MS4525 differential-pressure / airspeed driver
(`src/drivers/differential_pressure/ms4525/ms4525_airspeed.cpp`).

The driver is a two-phase polling state machine (`RunImpl`) over a small
mutable state: the phase flag `_collect_phase`, the last-known-good flag
`_sensor_ok`, the configured poll interval `_measure_interval`, the
previous-sample cache `_dp_raw_prev` / `_dT_raw_prev`, and the comms-error
performance counter.  `measure` sends a one-byte zero command; `collect`
reads four bytes, decodes them, and conditionally publishes a sample.

Modelling choices:
* bytes and raw counts are `Nat` (all C intermediate values here are
  non-negative and far below any overflow boundary: `dp_raw ≤ 0x3FFF`
  fits `int16_t`, `dT_raw ≤ 0x7FF` fits `int16_t`);
* the `float` arithmetic of the physical conversion is modelled exactly
  over `ℚ`, with the literals `0.1f`, `0.8f`, `6894.757f` taken at their
  decimal values;
* the bus transfer primitive is an oracle input: `Xfer.fail` is a
  negative return from `transfer`, `Xfer.ok r` a successful 4-byte read;
* timestamps, `device_id` and the uORB plumbing are external
  collaborators and are not part of the published `Sample` record;
* `perf_count(_comms_errors)` is the successor on the `comms_errors`
  field; `perf_event_count` reads it.
-/

/-- From the C define `MEAS_RATE 100` (measurement rate in Hz). -/
def MEAS_RATE : Nat := 100

/-- From the C define `CONVERSION_INTERVAL (1000000 / MEAS_RATE)`, in microseconds. -/
def CONVERSION_INTERVAL : Nat := 1000000 / MEAS_RATE

/-- From the C define `I2C_ADDRESS_MS4515DO 0x46`. -/
def I2C_ADDRESS_MS4515DO : Nat := 0x46

/-- From the C define `I2C_ADDRESS_MS4525DO 0x28`. -/
def I2C_ADDRESS_MS4525DO : Nat := 0x28

/-- Enumerator `DEVICE_TYPE_MS4515 = 4515` of `enum MS_DEVICE_TYPE`. -/
def DEVICE_TYPE_MS4515 : Int := 4515

/-- Enumerator `DEVICE_TYPE_MS4525 = 4525` of `enum MS_DEVICE_TYPE`. -/
def DEVICE_TYPE_MS4525 : Int := 4525

/-- A 4-byte bus response (`uint8_t val[4]`).  Fields are `Nat`; theorems
that depend on byte range carry explicit `< 256` hypotheses. -/
structure Resp where
  b0 : Nat
  b1 : Nat
  b2 : Nat
  b3 : Nat
deriving DecidableEq

/-- Outcome of the bus `transfer` primitive for the 4-byte read in
`collect`: `fail` models a negative return value, `ok r` a successful
read delivering the bytes `r`. -/
inductive Xfer where
  | fail : Xfer
  | ok : Resp → Xfer
deriving DecidableEq

/-- Return value of `MEASAirspeed::collect`: `err` is the propagated
negative `transfer` return, `eagain` is `-EAGAIN`, `ok` is `PX4_OK`. -/
inductive CollectRet where
  | err : CollectRet
  | eagain : CollectRet
  | ok : CollectRet
deriving DecidableEq

/-- Scheduling action taken by one `RunImpl` step: `ScheduleNow()` or
`ScheduleDelayed(d)` with delay `d` in microseconds. -/
inductive Sched where
  | now : Sched
  | delayed : Int → Sched
deriving DecidableEq

/-- Mutable per-instance state of the driver (fields of `class MEASAirspeed`,
without the leading underscores): `_sensor_ok`, `_measure_interval`,
`_collect_phase`, `_dp_raw_prev`, `_dT_raw_prev`, and the
`_comms_errors` performance counter (a count). -/
structure DriverState where
  sensor_ok : Bool
  measure_interval : Int
  collect_phase : Bool
  dp_raw_prev : Nat
  dT_raw_prev : Nat
  comms_errors : Nat
deriving DecidableEq

/-- The published `sensor_differential_pressure_s` report, restricted to
the value-carrying fields (timestamps and `device_id` come from external
collaborators). -/
structure Sample where
  differential_pressure_pa : ℚ
  temperature : ℚ
  error_count : Nat
deriving DecidableEq

/-- Status bits of byte 0: `(val[0] & 0xC0) >> 6`. -/
def status (b0 : Nat) : Nat := (b0 &&& 0xC0) >>> 6

/-- Raw pressure count: `0x3FFF & ((val[0] << 8) + val[1])`. -/
def dp_raw (b0 b1 : Nat) : Nat := 0x3FFF &&& (b0 <<< 8 + b1)

/-- Raw temperature count: `(0xFFE0 & ((val[2] << 8) + val[3])) >> 5`. -/
def dT_raw (b2 b3 : Nat) : Nat := (0xFFE0 &&& (b2 <<< 8 + b3)) >>> 5

/-- Constant `P_min = -1.0f` of the pressure transfer function. -/
def P_min : ℚ := -1

/-- Constant `P_max = 1.0f` of the pressure transfer function. -/
def P_max : ℚ := 1

/-- Constant `PSI_to_Pa = 6894.757f`. -/
def PSI_to_Pa : ℚ := 6894757 / 1000

/-- Published temperature: `((200.0f * dT_raw) / 2047) - 50`. -/
def temperatureOf (dT : Nat) : ℚ := (200 * (dT : ℚ)) / 2047 - 50

/-- Source formula `diff_press_PSI = -((dp_raw - 0.1f * 16383) * (P_max - P_min) / (0.8f * 16383) + P_min)`. -/
def diff_press_PSI (dp : Nat) : ℚ :=
  -(((dp : ℚ) - (1 / 10) * 16383) * (P_max - P_min) / ((8 / 10) * 16383) + P_min)

/-- Source formula `diff_press_pa_raw = diff_press_PSI * PSI_to_Pa`. -/
def diff_press_pa_raw (dp : Nat) : ℚ := diff_press_PSI dp * PSI_to_Pa

namespace MEASAirspeed

/-- Model of `MEASAirspeed::collect()`.  Takes the current state and the
outcome of the 4-byte bus read; returns the new state, the return code,
and the published sample, if any.  Mirrors the source line by line:
transfer failure counts a comms error and propagates the error; the
status switch returns `-EAGAIN` for Reserved (1), Stale (2) and Fault (3),
counting a comms error only for Fault; a saturated temperature count
(2047) counts a comms error and returns `-EAGAIN`; otherwise the sample
is published and the cache updated exactly when both decoded counts
differ from the cache. -/
def collect (s : DriverState) (x : Xfer) : DriverState × CollectRet × Option Sample :=
  match x with
  | .fail => ({ s with comms_errors := s.comms_errors + 1 }, .err, none)
  | .ok r =>
    if status r.b0 = 1 then
      (s, .eagain, none)
    else if status r.b0 = 2 then
      (s, .eagain, none)
    else if status r.b0 = 3 then
      ({ s with comms_errors := s.comms_errors + 1 }, .eagain, none)
    else
      let dp := dp_raw r.b0 r.b1
      let dT := dT_raw r.b2 r.b3
      if dT = 2047 then
        ({ s with comms_errors := s.comms_errors + 1 }, .eagain, none)
      else if dp ≠ s.dp_raw_prev ∧ dT ≠ s.dT_raw_prev then
        ({ s with dp_raw_prev := dp, dT_raw_prev := dT },
         .ok,
         some { differential_pressure_pa := diff_press_pa_raw dp,
                temperature := temperatureOf dT,
                error_count := s.comms_errors })
      else
        (s, .ok, none)

/-- Model of `MEASAirspeed::measure()`.  Sends the one-byte zero command;
the bus outcome is the oracle `transfer_ok`.  On failure the comms-error
counter is incremented.  Returns the new state and whether the send
returned `OK`. -/
def measure (s : DriverState) (transfer_ok : Bool) : DriverState × Bool :=
  if transfer_ok then (s, true)
  else ({ s with comms_errors := s.comms_errors + 1 }, false)

/-- Oracle inputs for one `RunImpl` step: the outcome of the measure
command send and of the 4-byte collect read. -/
structure Env where
  measure_ok : Bool
  bus : Xfer
deriving DecidableEq

/-- The measurement phase tail of `RunImpl` (lines after the collect
block): run `measure`, set `_sensor_ok` to its success, set
`_collect_phase = true`, and `ScheduleDelayed(CONVERSION_INTERVAL)`.
The argument `pub` threads through a sample published earlier in the
same step. -/
def measurePhase (s : DriverState) (env : Env) (pub : Option Sample) :
    DriverState × Sched × Option Sample :=
  let m := measure s env.measure_ok
  ({ m.1 with sensor_ok := m.2, collect_phase := true },
   Sched.delayed (CONVERSION_INTERVAL : Int), pub)

/-- Model of `MEASAirspeed::RunImpl()`.  In the collect phase, a non-`OK`
collect restarts the state machine (`_collect_phase = false`,
`_sensor_ok = false`, `ScheduleNow()`); a successful collect moves to the
measure phase, either after
`ScheduleDelayed(_measure_interval - CONVERSION_INTERVAL)` when the
configured interval exceeds the conversion interval, or by falling
through into the measure phase of the same invocation. -/
def RunImpl (s : DriverState) (env : Env) : DriverState × Sched × Option Sample :=
  if s.collect_phase then
    let c := collect s env.bus
    if c.2.1 ≠ CollectRet.ok then
      ({ c.1 with collect_phase := false, sensor_ok := false }, Sched.now, c.2.2)
    else
      let s2 := { c.1 with collect_phase := false }
      if s2.measure_interval > (CONVERSION_INTERVAL : Int) then
        (s2, Sched.delayed (s2.measure_interval - (CONVERSION_INTERVAL : Int)), c.2.2)
      else
        measurePhase s2 env c.2.2
  else
    measurePhase s env none

end MEASAirspeed

/-- Bus-address selection of `ms4525_airspeed_main`: the `-T` value is
compared against `DEVICE_TYPE_MS4525` only; every other value falls to
the `else` branch selecting the MS4515 address. -/
def selectI2CAddress (device_type : Int) : Nat :=
  if device_type = DEVICE_TYPE_MS4525 then I2C_ADDRESS_MS4525DO else I2C_ADDRESS_MS4515DO

/-- Restatement of the temperature formula in the words of the spec, for
comparison with the source-derived `temperatureOf`:
temperature_degrees = (200.0 x temperature_count / 2047) - 50. -/
def temperature_spec (dT : Nat) : ℚ := 200 * (dT : ℚ) / 2047 - 50

/-- Restatement of the pressure formula in the words of the spec, for
comparison with the source-derived `diff_press_pa_raw`:
pressure_pascals = -((count - 0.1 x 16383) x (P_max - P_min) / (0.8 x 16383) + P_min) x 6894.757
with P_min = -1 and P_max = 1 substituted. -/
def diff_press_pa_spec (dp : Nat) : ℚ :=
  -(((dp : ℚ) - (1 / 10) * 16383) * (1 - (-1)) / ((8 / 10) * 16383) + (-1)) * (6894757 / 1000)

/-- A concrete driver state in the collect phase with a zeroed cache,
used by witnesses. -/
def sInit : DriverState :=
  { sensor_ok := false, measure_interval := 0, collect_phase := true,
    dp_raw_prev := 0, dT_raw_prev := 0, comms_errors := 0 }

/-- A concrete Normal-status response decoding to pressure count 1 and
temperature count 1. -/
def respGood : Resp := { b0 := 0, b1 := 1, b2 := 0, b3 := 0x20 }

/-- A concrete Fault-status response (status bits 11). -/
def respFault : Resp := { b0 := 0xC0, b1 := 0, b2 := 0, b3 := 0 }

/-- Step environment delivering the Fault-status response. -/
def envFault : MEASAirspeed.Env := { measure_ok := true, bus := Xfer.ok respFault }

/-- Step environment in which the 4-byte read fails at the transport level. -/
def envXferFail : MEASAirspeed.Env := { measure_ok := true, bus := Xfer.fail }

/-- The sample published by `collect sInit (Xfer.ok respGood)`. -/
def smp0 : Sample :=
  { differential_pressure_pa := diff_press_pa_raw 1,
    temperature := temperatureOf 1, error_count := 0 }

/-- Bit `5 + i` of the mask `0xFFE0` is set exactly for `i < 11`. -/
theorem testBit_FFE0 (i : Nat) : Nat.testBit 0xFFE0 (5 + i) = decide (i < 11) := by
  by_cases h : i < 11
  · interval_cases i <;> decide
  · have h16 : (0xFFE0 : Nat) < 2 ^ (5 + i) := by
      calc (0xFFE0 : Nat) < 2 ^ 16 := by norm_num
      _ ≤ 2 ^ (5 + i) := Nat.pow_le_pow_right (by norm_num) (by omega)
    simp [Nat.testBit_lt_two_pow h16, h]

/-- Masking with `0xFFE0` then shifting right by 5 keeps the 11 bits
numbered 5 through 15. -/
theorem mask_FFE0_shiftRight (x : Nat) : (0xFFE0 &&& x) >>> 5 = (x >>> 5) % 2 ^ 11 := by
  apply Nat.eq_of_testBit_eq
  intro i
  rw [Nat.testBit_shiftRight, Nat.testBit_and, Nat.testBit_mod_two_pow,
    Nat.testBit_shiftRight, testBit_FFE0]

/-- Masking with `0x3FFF` is reduction modulo `2 ^ 14`. -/
theorem mask_3FFF (x : Nat) : 0x3FFF &&& x = x % 2 ^ 14 := by
  have h : (0x3FFF : Nat) = 2 ^ 14 - 1 := by norm_num
  rw [h, Nat.land_comm, Nat.and_pow_two_sub_one_eq_mod]

/-- The decoded status field is always one of 0, 1, 2, 3. -/
theorem status_le_three (b0 : Nat) : status b0 ≤ 3 := by
  have h : b0 &&& 0xC0 ≤ 0xC0 := Nat.and_le_right
  unfold status
  rw [Nat.shiftRight_eq_div_pow]
  have h64 : (2 : Nat) ^ 6 = 64 := by norm_num
  rw [h64]
  omega

/-- The decoded temperature count is an 11-bit value. -/
theorem dT_raw_lt (b2 b3 : Nat) : dT_raw b2 b3 < 2048 := by
  unfold dT_raw
  rw [mask_FFE0_shiftRight]
  exact Nat.mod_lt _ (by norm_num)

/-- Helper: whenever `collect` returns anything other than `PX4_OK`, the
previous-sample cache is untouched and nothing is published. -/
theorem collect_cache_of_ne_ok (s : DriverState) (x : Xfer)
    (h : (MEASAirspeed.collect s x).2.1 ≠ CollectRet.ok) :
    (MEASAirspeed.collect s x).1.dp_raw_prev = s.dp_raw_prev
    ∧ (MEASAirspeed.collect s x).1.dT_raw_prev = s.dT_raw_prev
    ∧ (MEASAirspeed.collect s x).2.2 = none := by
  revert h
  cases x with
  | fail => simp [MEASAirspeed.collect]
  | ok r =>
    simp only [MEASAirspeed.collect]
    split_ifs <;> simp

/-- Helper: the source pressure conversion agrees with the formula as the
spec words it. -/
theorem diff_press_pa_raw_eq_spec (dp : Nat) : diff_press_pa_raw dp = diff_press_pa_spec dp := by
  simp [diff_press_pa_raw, diff_press_PSI, diff_press_pa_spec, P_min, P_max, PSI_to_Pa]

/-- C1: a sample is constructed and published only when the decoded
pressure count differs from the cached previous pressure count and the
decoded temperature count differs from the cached previous temperature
count; running `collect` twice on identical raw bytes never produces a
second publish; and the cache is updated exactly when a publish occurs
(unchanged on a non-publishing collect, set to the decoded counts on a
publishing one). -/
theorem collect_publish_change_suppression (s : DriverState) (x : Xfer) :
    (∀ smp, (MEASAirspeed.collect s x).2.2 = some smp →
      ∃ r, x = Xfer.ok r ∧ dp_raw r.b0 r.b1 ≠ s.dp_raw_prev ∧ dT_raw r.b2 r.b3 ≠ s.dT_raw_prev)
    ∧ (MEASAirspeed.collect (MEASAirspeed.collect s x).1 x).2.2 = none
    ∧ ((MEASAirspeed.collect s x).2.2 = none →
        (MEASAirspeed.collect s x).1.dp_raw_prev = s.dp_raw_prev
        ∧ (MEASAirspeed.collect s x).1.dT_raw_prev = s.dT_raw_prev)
    ∧ (∀ smp, (MEASAirspeed.collect s x).2.2 = some smp →
        ∃ r, x = Xfer.ok r ∧ (MEASAirspeed.collect s x).1.dp_raw_prev = dp_raw r.b0 r.b1
          ∧ (MEASAirspeed.collect s x).1.dT_raw_prev = dT_raw r.b2 r.b3) := by
  cases x with
  | fail => simp [MEASAirspeed.collect]
  | ok r =>
    by_cases h1 : status r.b0 = 1
    · simp [MEASAirspeed.collect, h1]
    by_cases h2 : status r.b0 = 2
    · simp [MEASAirspeed.collect, h1, h2]
    by_cases h3 : status r.b0 = 3
    · simp [MEASAirspeed.collect, h1, h2, h3]
    by_cases h4 : dT_raw r.b2 r.b3 = 2047
    · simp [MEASAirspeed.collect, h1, h2, h3, h4]
    by_cases h5 : dp_raw r.b0 r.b1 ≠ s.dp_raw_prev ∧ dT_raw r.b2 r.b3 ≠ s.dT_raw_prev
    · refine ⟨?_, ?_, ?_, ?_⟩
      · intro smp _
        exact ⟨r, rfl, h5.1, h5.2⟩
      · simp [MEASAirspeed.collect, h1, h2, h3, h4, h5]
      · simp [MEASAirspeed.collect, h1, h2, h3, h4, h5]
      · intro smp _
        refine ⟨r, rfl, ?_, ?_⟩ <;> simp [MEASAirspeed.collect, h1, h2, h3, h4, h5]
    · simp [MEASAirspeed.collect, h1, h2, h3, h4, h5]

/-- Witness for C1: a first collect on `respGood` publishes, and a second
collect on the identical bytes does not publish again. -/
theorem collect_publish_change_suppression_witness :
    (MEASAirspeed.collect (MEASAirspeed.collect sInit (Xfer.ok respGood)).1
      (Xfer.ok respGood)).2.2 = none :=
  (collect_publish_change_suppression sInit (Xfer.ok respGood)).2.1

/-- C2 counterexample: a protocol fault (Fault status bits) is treated
exactly like a transport fault, contrary to the claimed contrast — the
step forces the phase back to MEASURE (`_collect_phase = false`), clears
`_sensor_ok`, and schedules an immediate retry (`ScheduleNow`), byte for
byte the same treatment as a failed bus read. -/
theorem protocol_fault_hard_reset_counterexample :
    (MEASAirspeed.RunImpl sInit envFault).2.1 = Sched.now
    ∧ (MEASAirspeed.RunImpl sInit envFault).1.collect_phase = false
    ∧ (MEASAirspeed.RunImpl sInit envFault).1.sensor_ok = false
    ∧ (MEASAirspeed.RunImpl sInit envFault).2.1 = (MEASAirspeed.RunImpl sInit envXferFail).2.1
    ∧ (MEASAirspeed.RunImpl sInit envFault).1.collect_phase
        = (MEASAirspeed.RunImpl sInit envXferFail).1.collect_phase
    ∧ (MEASAirspeed.RunImpl sInit envFault).1.sensor_ok
        = (MEASAirspeed.RunImpl sInit envXferFail).1.sensor_ok := by
  decide

/-- C2 amended: in the COLLECT phase a protocol fault (collect returns
`-EAGAIN`) aborts the cycle without mutating the cache and without
publishing, but it is treated the same as a transport fault: the phase
is forced back to MEASURE, the last-known-good flag is cleared, and the
next step is scheduled immediately. -/
theorem protocol_fault_resets_state_machine (s : DriverState) (env : MEASAirspeed.Env)
    (hc : s.collect_phase = true)
    (hp : (MEASAirspeed.collect s env.bus).2.1 = CollectRet.eagain) :
    (MEASAirspeed.RunImpl s env).1.dp_raw_prev = s.dp_raw_prev
    ∧ (MEASAirspeed.RunImpl s env).1.dT_raw_prev = s.dT_raw_prev
    ∧ (MEASAirspeed.RunImpl s env).2.2 = none
    ∧ (MEASAirspeed.RunImpl s env).1.collect_phase = false
    ∧ (MEASAirspeed.RunImpl s env).1.sensor_ok = false
    ∧ (MEASAirspeed.RunImpl s env).2.1 = Sched.now := by
  have hcc := collect_cache_of_ne_ok s env.bus (by rw [hp]; decide)
  simp only [MEASAirspeed.RunImpl, hc, if_true, hp]
  simp [hcc.1, hcc.2.1, hcc.2.2]

/-- Witness for the amended C2, at the Fault-status response. -/
theorem protocol_fault_resets_state_machine_witness :
    (MEASAirspeed.RunImpl sInit envFault).1.dp_raw_prev = sInit.dp_raw_prev
    ∧ (MEASAirspeed.RunImpl sInit envFault).1.dT_raw_prev = sInit.dT_raw_prev
    ∧ (MEASAirspeed.RunImpl sInit envFault).2.2 = none
    ∧ (MEASAirspeed.RunImpl sInit envFault).1.collect_phase = false
    ∧ (MEASAirspeed.RunImpl sInit envFault).1.sensor_ok = false
    ∧ (MEASAirspeed.RunImpl sInit envFault).2.1 = Sched.now :=
  protocol_fault_resets_state_machine sInit envFault (by decide) (by decide)

/-- C3: every failing collect (transport error, any non-Normal status, or
saturated temperature count 2047 — that is, any return other than
`PX4_OK`) leaves the previous-sample cache unchanged and publishes
nothing: collect is atomic on error. -/
theorem collect_atomic_on_error (s : DriverState) (x : Xfer)
    (h : (MEASAirspeed.collect s x).2.1 ≠ CollectRet.ok) :
    (MEASAirspeed.collect s x).1.dp_raw_prev = s.dp_raw_prev
    ∧ (MEASAirspeed.collect s x).1.dT_raw_prev = s.dT_raw_prev
    ∧ (MEASAirspeed.collect s x).2.2 = none :=
  collect_cache_of_ne_ok s x h

/-- Witness for C3 at the Fault-status response. -/
theorem collect_atomic_on_error_witness :
    (MEASAirspeed.collect sInit (Xfer.ok respFault)).1.dp_raw_prev = sInit.dp_raw_prev
    ∧ (MEASAirspeed.collect sInit (Xfer.ok respFault)).1.dT_raw_prev = sInit.dT_raw_prev
    ∧ (MEASAirspeed.collect sInit (Xfer.ok respFault)).2.2 = none :=
  collect_atomic_on_error sInit (Xfer.ok respFault) (by decide)

/-- C4: for every 4-byte response, the decoded pressure count is the 14
low bits of the big-endian word of bytes 0 and 1, the decoded temperature
count is the big-endian word of bytes 2 and 3 shifted right 5 and reduced
to 11 bits (hence below 2 ^ 11), and decoding identical bytes yields
identical counts. -/
theorem decode_raw_counts (b0 b1 b2 b3 : Nat)
    (h0 : b0 < 256) (h1 : b1 < 256) (h2 : b2 < 256) (h3 : b3 < 256) :
    dp_raw b0 b1 = (b0 * 256 + b1) % 2 ^ 14
    ∧ dT_raw b2 b3 = ((b2 * 256 + b3) / 2 ^ 5) % 2 ^ 11
    ∧ dT_raw b2 b3 < 2 ^ 11
    ∧ (∀ c0 c1 c2 c3 : Nat, c0 = b0 → c1 = b1 → c2 = b2 → c3 = b3 →
        (dp_raw c0 c1, dT_raw c2 c3) = (dp_raw b0 b1, dT_raw b2 b3)) := by
  refine ⟨?_, ?_, ?_, ?_⟩
  · unfold dp_raw
    rw [mask_3FFF, Nat.shiftLeft_eq]
  · unfold dT_raw
    rw [mask_FFE0_shiftRight, Nat.shiftRight_eq_div_pow, Nat.shiftLeft_eq]
  · have h := dT_raw_lt b2 b3
    omega
  · intro c0 c1 c2 c3 e0 e1 e2 e3
    subst e0; subst e1; subst e2; subst e3
    rfl

/-- Witness for C4 at concrete bytes. -/
theorem decode_raw_counts_witness :
    dp_raw 0x12 0x34 = (0x12 * 256 + 0x34) % 2 ^ 14
    ∧ dT_raw 0x56 0x78 = ((0x56 * 256 + 0x78) / 2 ^ 5) % 2 ^ 11 :=
  ⟨(decode_raw_counts 0x12 0x34 0x56 0x78 (by decide) (by decide) (by decide) (by decide)).1,
   (decode_raw_counts 0x12 0x34 0x56 0x78 (by decide) (by decide) (by decide) (by decide)).2.1⟩

/-- C5: the published physical values satisfy the spec formulas
(temperature = 200 x count / 2047 - 50 and the negated, scaled pressure
transfer-function inversion times 6894.757), and the mid-scale pressure
count 8192 yields pressure values within 1/1000 PSI and 1 Pa of zero
(exact value -(5 / 65532) PSI). -/
theorem physical_conversion_formulas :
    (∀ dT : Nat, temperatureOf dT = temperature_spec dT)
    ∧ (∀ dp : Nat, diff_press_pa_raw dp = diff_press_pa_spec dp)
    ∧ (∀ (s : DriverState) (x : Xfer) (smp : Sample),
        (MEASAirspeed.collect s x).2.2 = some smp →
        ∃ r, x = Xfer.ok r
          ∧ smp.temperature = temperature_spec (dT_raw r.b2 r.b3)
          ∧ smp.differential_pressure_pa = diff_press_pa_spec (dp_raw r.b0 r.b1))
    ∧ diff_press_PSI 8192 = -(5 / 65532)
    ∧ -(1 / 1000) < diff_press_PSI 8192 ∧ diff_press_PSI 8192 < 1 / 1000
    ∧ -1 < diff_press_pa_raw 8192 ∧ diff_press_pa_raw 8192 < 1 := by
  refine ⟨fun dT => rfl, diff_press_pa_raw_eq_spec, ?_, ?_, ?_, ?_, ?_, ?_⟩
  · intro s x smp hsmp
    cases x with
    | fail => simp [MEASAirspeed.collect] at hsmp
    | ok r =>
      refine ⟨r, rfl, ?_⟩
      by_cases h1 : status r.b0 = 1
      · simp [MEASAirspeed.collect, h1] at hsmp
      by_cases h2 : status r.b0 = 2
      · simp [MEASAirspeed.collect, h1, h2] at hsmp
      by_cases h3 : status r.b0 = 3
      · simp [MEASAirspeed.collect, h1, h2, h3] at hsmp
      by_cases h4 : dT_raw r.b2 r.b3 = 2047
      · simp [MEASAirspeed.collect, h1, h2, h3, h4] at hsmp
      by_cases h5 : dp_raw r.b0 r.b1 ≠ s.dp_raw_prev ∧ dT_raw r.b2 r.b3 ≠ s.dT_raw_prev
      · simp only [MEASAirspeed.collect, h1, h2, h3, h4, if_false] at hsmp
        rw [if_pos h5] at hsmp
        simp only [Option.some.injEq] at hsmp
        rw [← hsmp]
        exact ⟨rfl, diff_press_pa_raw_eq_spec _⟩
      · simp [MEASAirspeed.collect, h1, h2, h3, h4, h5] at hsmp
  · norm_num [diff_press_PSI, P_min, P_max]
  · norm_num [diff_press_PSI, P_min, P_max]
  · norm_num [diff_press_PSI, P_min, P_max]
  · norm_num [diff_press_pa_raw, diff_press_PSI, P_min, P_max, PSI_to_Pa]
  · norm_num [diff_press_pa_raw, diff_press_PSI, P_min, P_max, PSI_to_Pa]

/-- Witness for C5: the concrete sample published for `respGood` carries
the spec-formula values. -/
theorem physical_conversion_formulas_witness :
    ∃ r, Xfer.ok respGood = Xfer.ok r
      ∧ smp0.temperature = temperature_spec (dT_raw r.b2 r.b3)
      ∧ smp0.differential_pressure_pa = diff_press_pa_spec (dp_raw r.b0 r.b1) :=
  physical_conversion_formulas.2.2.1 sInit (Xfer.ok respGood) smp0 (by rfl)

/-- C6: the conversion interval is 1000000 / 100 = 10000 microseconds;
after a MEASURE step the next step is scheduled after exactly that
interval; after a successful COLLECT with a configured poll interval
greater than the conversion interval, the next step is scheduled after
(poll interval - conversion interval); after a failed collect the next
step is scheduled with zero added delay and the phase is MEASURE. -/
theorem run_step_scheduling (s : DriverState) (env : MEASAirspeed.Env) :
    CONVERSION_INTERVAL = 10000
    ∧ (s.collect_phase = false →
        (MEASAirspeed.RunImpl s env).2.1 = Sched.delayed (CONVERSION_INTERVAL : Int))
    ∧ (s.collect_phase = true → (MEASAirspeed.collect s env.bus).2.1 = CollectRet.ok →
        s.measure_interval > (CONVERSION_INTERVAL : Int) →
        (MEASAirspeed.RunImpl s env).2.1
          = Sched.delayed (s.measure_interval - (CONVERSION_INTERVAL : Int)))
    ∧ (s.collect_phase = true → (MEASAirspeed.collect s env.bus).2.1 ≠ CollectRet.ok →
        (MEASAirspeed.RunImpl s env).2.1 = Sched.now
        ∧ (MEASAirspeed.RunImpl s env).1.collect_phase = false) := by
  refine ⟨rfl, ?_, ?_, ?_⟩
  · intro h
    simp [MEASAirspeed.RunImpl, MEASAirspeed.measurePhase, h]
  · intro hc hok hgt
    have hmi : (MEASAirspeed.collect s env.bus).1.measure_interval = s.measure_interval := by
      cases hx : env.bus with
      | fail => simp [MEASAirspeed.collect]
      | ok r =>
        simp only [MEASAirspeed.collect]
        split_ifs <;> rfl
    simp only [MEASAirspeed.RunImpl, hc, if_true, hok]
    simp [hmi, hgt]
  · intro hc hne
    simp only [MEASAirspeed.RunImpl, hc, if_true]
    simp [hne]

/-- Witness for C6 at a failing collect: immediate reschedule with phase
MEASURE. -/
theorem run_step_scheduling_witness :
    (MEASAirspeed.RunImpl sInit envXferFail).2.1 = Sched.now
    ∧ (MEASAirspeed.RunImpl sInit envXferFail).1.collect_phase = false :=
  (run_step_scheduling sInit envXferFail).2.2.2 (by decide) (by decide)

/-- C7: a collect increments the comms-error counter exactly when the bus
transfer fails, the status is Fault (3), or the temperature count is
saturated at 2047 on a Normal-status read; a Stale status (2) aborts
with `-EAGAIN` without incrementing; each collect changes the counter by
at most one, upward (monotonic); and every published sample carries the
current counter value. -/
theorem comms_error_accounting (s : DriverState) (x : Xfer) :
    ((MEASAirspeed.collect s x).1.comms_errors = s.comms_errors + 1 ↔
      (x = Xfer.fail
        ∨ ∃ r, x = Xfer.ok r
            ∧ (status r.b0 = 3 ∨ (status r.b0 = 0 ∧ dT_raw r.b2 r.b3 = 2047))))
    ∧ ((MEASAirspeed.collect s x).1.comms_errors = s.comms_errors
        ∨ (MEASAirspeed.collect s x).1.comms_errors = s.comms_errors + 1)
    ∧ (∀ r, x = Xfer.ok r → status r.b0 = 2 →
        (MEASAirspeed.collect s x).1.comms_errors = s.comms_errors
        ∧ (MEASAirspeed.collect s x).2.2 = none
        ∧ (MEASAirspeed.collect s x).2.1 = CollectRet.eagain)
    ∧ (∀ smp, (MEASAirspeed.collect s x).2.2 = some smp →
        smp.error_count = (MEASAirspeed.collect s x).1.comms_errors) := by
  cases x with
  | fail => simp [MEASAirspeed.collect]
  | ok r =>
    by_cases h1 : status r.b0 = 1
    · simp [MEASAirspeed.collect, h1]
    by_cases h2 : status r.b0 = 2
    · simp [MEASAirspeed.collect, h1, h2]
    by_cases h3 : status r.b0 = 3
    · simp [MEASAirspeed.collect, h1, h2, h3]
    have h0 : status r.b0 = 0 := by have := status_le_three r.b0; omega
    by_cases h4 : dT_raw r.b2 r.b3 = 2047
    · simp [MEASAirspeed.collect, h0, h4]
    by_cases h5 : dp_raw r.b0 r.b1 ≠ s.dp_raw_prev ∧ dT_raw r.b2 r.b3 ≠ s.dT_raw_prev
    · simp [MEASAirspeed.collect, h0, h4, h5]
    · simp [MEASAirspeed.collect, h0, h4, h5]

/-- Witness for C7: a Fault-status read increments the counter; a
Stale-status read does not. -/
theorem comms_error_accounting_witness :
    (MEASAirspeed.collect sInit (Xfer.ok respFault)).1.comms_errors
        = sInit.comms_errors + 1
    ∧ (MEASAirspeed.collect sInit
        (Xfer.ok { b0 := 0x80, b1 := 0, b2 := 0, b3 := 0 })).1.comms_errors
        = sInit.comms_errors :=
  ⟨(comms_error_accounting sInit (Xfer.ok respFault)).1.mpr
      (Or.inr ⟨respFault, rfl, Or.inl (by decide)⟩),
   ((comms_error_accounting sInit
      (Xfer.ok { b0 := 0x80, b1 := 0, b2 := 0, b3 := 0 })).2.2.1
      { b0 := 0x80, b1 := 0, b2 := 0, b3 := 0 } rfl (by decide)).1⟩

/-- C8: a MEASURE step always advances to the COLLECT phase and schedules
the next step after the conversion interval, regardless of whether the
command send succeeded; the last-known-good flag is set to the outcome
of the send. -/
theorem measure_phase_always_advances (s : DriverState) (env : MEASAirspeed.Env)
    (h : s.collect_phase = false) :
    (MEASAirspeed.RunImpl s env).1.collect_phase = true
    ∧ (MEASAirspeed.RunImpl s env).2.1 = Sched.delayed (CONVERSION_INTERVAL : Int)
    ∧ (MEASAirspeed.RunImpl s env).1.sensor_ok = env.measure_ok := by
  cases hm : env.measure_ok <;>
    simp [MEASAirspeed.RunImpl, MEASAirspeed.measurePhase, MEASAirspeed.measure, h, hm]

/-- Witness for C8 with a failing command send. -/
theorem measure_phase_always_advances_witness :
    (MEASAirspeed.RunImpl { sInit with collect_phase := false }
        { measure_ok := false, bus := Xfer.fail }).1.collect_phase = true
    ∧ (MEASAirspeed.RunImpl { sInit with collect_phase := false }
        { measure_ok := false, bus := Xfer.fail }).2.1
        = Sched.delayed (CONVERSION_INTERVAL : Int)
    ∧ (MEASAirspeed.RunImpl { sInit with collect_phase := false }
        { measure_ok := false, bus := Xfer.fail }).1.sensor_ok = false :=
  measure_phase_always_advances { sInit with collect_phase := false }
    { measure_ok := false, bus := Xfer.fail } (by decide)

/-- C9: a response with Reserved status bits (01) makes collect return
`-EAGAIN` with the state completely unchanged — no error-counter
increment and no cache mutation — the same treatment as Stale. -/
theorem reserved_status_eagain (s : DriverState) (r : Resp) (h : status r.b0 = 1) :
    MEASAirspeed.collect s (Xfer.ok r) = (s, CollectRet.eagain, none) := by
  simp [MEASAirspeed.collect, h]

/-- Witness for C9 at byte 0 equal to 0x40. -/
theorem reserved_status_eagain_witness :
    MEASAirspeed.collect sInit (Xfer.ok { b0 := 0x40, b1 := 0, b2 := 0, b3 := 0 })
      = (sInit, CollectRet.eagain, none) :=
  reserved_status_eagain sInit { b0 := 0x40, b1 := 0, b2 := 0, b3 := 0 } (by decide)

/-- C10: the device-type value is not validated — every value other than
exactly 4525 (including 4515 and the 0 that atoi yields on unparsable
strings) selects the MS4515 bus address 0x46; only 4525 selects 0x28. -/
theorem device_type_address_selection (d : Int) :
    (d ≠ 4525 → selectI2CAddress d = 0x46) ∧ (d = 4525 → selectI2CAddress d = 0x28) := by
  constructor
  · intro h
    simp [selectI2CAddress, DEVICE_TYPE_MS4525, I2C_ADDRESS_MS4515DO, h]
  · intro h
    simp [selectI2CAddress, DEVICE_TYPE_MS4525, I2C_ADDRESS_MS4525DO, h]

/-- Witness for C10 at 4515, 0, and 4525. -/
theorem device_type_address_selection_witness :
    selectI2CAddress 4515 = 0x46 ∧ selectI2CAddress 0 = 0x46 ∧ selectI2CAddress 4525 = 0x28 :=
  ⟨(device_type_address_selection 4515).1 (by decide),
   (device_type_address_selection 0).1 (by decide),
   (device_type_address_selection 4525).2 rfl⟩
